import Mathlib

/-
Verification of the belongs-to association (src/lib/associations/belongs-to.js)
against its natural-language specification.

The JavaScript class is embedded shallowly: the constructor, injectAttributes,
get, set and create become pure Lean functions over explicit data.  External
collaborators that are not part of the analysed source (the utility module,
the model/instance base class, the constraint builder and collision checker)
are modelled from the spec; each such definition carries a doc comment that
starts with "Modelled from the spec".
-/

set_option autoImplicit false

namespace Sequelize

/-- JavaScript runtime values, as far as the embedded operations need them. -/
inductive Value where
  | vundef
  | vnull
  | vint (n : Int)
  | vstr (s : String)
deriving DecidableEq, Repr

/-- JavaScript exceptions thrown by the embedded code: plain `Error` objects
and `TypeError`s raised by property access on `undefined`. -/
inductive JsError where
  | error (msg : String)
  | typeError (msg : String)
deriving DecidableEq, Repr

/-- An attribute descriptor in a model's `rawAttributes` registry
(type, nullability, storage field name, reference metadata). -/
structure Attr where
  typeName : Option String := none
  allowNull : Option Bool := none
  field : Option String := none
  references : Option (String × String) := none
deriving DecidableEq, Repr

/-- A foreign-key descriptor as normalized by the constructor:
`{ name, ...rest }`; plain strings become `{ name }` (belongs-to.js:47-65). -/
structure KeyDesc where
  name : String
  typeName : Option String := none
  allowNull : Option Bool := none
  field : Option String := none
deriving DecidableEq, Repr

/-- An entity type (model): attribute registry, primary key, naming options. -/
structure ModelDef where
  singularName : String
  rawAttributes : List (String × Attr)
  primaryKeyAttribute : String
  underscored : Bool
  tableName : String := ""
deriving DecidableEq, Repr

/-- One element of an array-form `foreignKey` option: a plain string or a
descriptor object (belongs-to.js:48-50). -/
inductive FKElem where
  | str (s : String)
  | obj (d : KeyDesc)
deriving DecidableEq, Repr

/-- The `foreignKey` configuration option: absent, a string, a descriptor
object, or an array of strings/descriptors. -/
inductive FKOption where
  | none
  | str (s : String)
  | obj (d : KeyDesc)
  | arr (xs : List FKElem)
deriving DecidableEq, Repr

/-- The `targetKey` configuration option: absent, a string, or an array. -/
inductive TKOption where
  | none
  | str (s : String)
  | arr (xs : List String)
deriving DecidableEq, Repr

/-- Options recognised at association declaration time (spec section 6).
`aliasName` is the `as` option. -/
structure BTOptions where
  aliasName : Option String := Option.none
  foreignKey : FKOption := FKOption.none
  targetKey : TKOption := TKOption.none
  keyType : Option String := Option.none
  useHooks : Option Bool := Option.none
deriving DecidableEq, Repr

/-- An entry of `identifierFields`: `rawAttributes[identifier].field || identifier`
where `identifier` is a whole descriptor object, so the fallback is the
descriptor itself, not its name (belongs-to.js:79). -/
inductive IdField where
  | str (s : String)
  | desc (d : KeyDesc)
deriving DecidableEq, Repr

/-- The constructed association object (the fields the constructor assigns;
the class never assigns a singular `foreignKey` or `targetKey` property,
only the plural sequences: belongs-to.js:23-24, 47-94). -/
structure BelongsToAssoc where
  source : ModelDef
  target : ModelDef
  asName : String
  isAliased : Bool
  foreignKeys : List KeyDesc
  targetKeys : List String
  targetKeyFields : List String
  identifierFields : List IdField
  singlePrimaryTargetKey : Option String
  keyType : Option String
  useHooks : Option Bool
  accessorGet : String
  accessorSet : String
  accessorCreate : String
deriving DecidableEq, Repr

/-- Reading the never-assigned `association.foreignKey` property yields the
JavaScript `undefined` value; modelled as the absent name (belongs-to.js
defines only `foreignKeys`, yet lines 215, 247 and 253-254 read `foreignKey`). -/
def BelongsToAssoc.foreignKeySingular (_a : BelongsToAssoc) : Option String :=
  Option.none

/-- Reading the never-assigned `association.targetKey` property yields the
JavaScript `undefined` value; modelled as the absent name (belongs-to.js
defines only `targetKeys`, yet lines 219 and 244 read `targetKey`). -/
def BelongsToAssoc.targetKeySingular (_a : BelongsToAssoc) : Option String :=
  Option.none

/-- JavaScript property-key coercion of a plain descriptor object:
`String(obj)` is `"[object Object]"`.  `identifierFields` indexes the source
registry with descriptor objects (belongs-to.js:78-79), so this is the key
actually looked up. -/
def objectPropKey : String := "[object Object]"

/-- The property key produced when an `undefined` key is used to index an
object (`ToPropertyKey(undefined) = "undefined"`). -/
def jsKeyName : Option String → String
  | some s => s
  | Option.none => "undefined"

/-- The string a primitive value turns into when used as an object key. -/
def propKeyOfValue : Value → String
  | Value.vundef => "undefined"
  | Value.vnull => "null"
  | Value.vint n => toString n
  | Value.vstr s => s

/-- JavaScript `a || b` on an optional string: an absent or empty string is
falsy and falls through to the default. -/
def orElseStr (v : Option String) (dflt : String) : String :=
  match v with
  | some s => if s = "" then dflt else s
  | Option.none => dflt

/-- Object-assignment update on an association list: an existing key is
overwritten in place, a new key is appended (JS `obj[k] = v`). -/
def setKey {β : Type} (m : List (String × β)) (k : String) (v : β) : List (String × β) :=
  if (m.lookup k).isSome then
    m.map (fun p => if p.1 = k then (k, v) else p)
  else m ++ [(k, v)]

/-- Modelled from the spec: the utility module's camel-casing (not part of the
analysed source) — runs of separator characters are dropped and the following
character is uppercased. -/
def camelizeChars : List Char → Bool → List Char
  | [], _ => []
  | c :: cs, up =>
    if c = '-' ∨ c = '_' ∨ c = ' ' then camelizeChars cs true
    else (if up then c.toUpper else c) :: camelizeChars cs false

/-- Modelled from the spec: camel-casing of a string. -/
def camelize (s : String) : String := String.mk (camelizeChars s.data false)

/-- Modelled from the spec: `Utils.camelizeIf` — camelize when the condition holds. -/
def camelizeIf (s : String) (cond : Bool) : String := if cond then camelize s else s

/-- Modelled from the spec: snake-casing of a string — the first character is
lowercased, later uppercase characters get an underscore inserted before them. -/
def underscoreChars : List Char → List Char
  | [] => []
  | c :: cs =>
    c.toLower :: cs.flatMap (fun d => if d.isUpper then ['_', d.toLower] else [d])

/-- Modelled from the spec: snake-casing of a string. -/
def underscore (s : String) : String := String.mk (underscoreChars s.data)

/-- Modelled from the spec: `Utils.underscoredIf` — snake-case when the condition holds. -/
def underscoredIf (s : String) (cond : Bool) : String := if cond then underscore s else s

/-- Modelled from the spec: `Utils.uppercaseFirst` — capitalize the first character. -/
def uppercaseFirst (s : String) : String :=
  match s.data with
  | [] => s
  | c :: cs => String.mk (c.toUpper :: cs)

/-- `_getDefaultForeignKeyName` (belongs-to.js:289-297): the camel-cased join
of the (optionally underscored) alias and the target's primary-key attribute,
with camel-casing applied exactly when the source is not underscored. -/
def defaultForeignKeyName (asName : String) (source target : ModelDef) : String :=
  camelizeIf (underscoredIf asName source.underscored ++ "_" ++ target.primaryKeyAttribute)
    (!source.underscored)

/-- The constructor's configuration error message (belongs-to.js:42-44). -/
def arityMsg : String :=
  "targetKey must be array of equal length when foreignKey is an array, and vice versa"

/-- The error message of the explicit missing-target-key throw (belongs-to.js:118). -/
def missingTargetKeyMsg : String := "Missing target key"

/-- The message of the TypeError raised by reading a property of `undefined`
(belongs-to.js:88 and 121 index `target.rawAttributes[targetKey]` without a guard). -/
def typeErrMsg : String := "Cannot read property of undefined"

def fkIsArr : FKOption → Bool
  | FKOption.arr _ => true
  | _ => false

def tkIsArr : TKOption → Bool
  | TKOption.arr _ => true
  | _ => false

def fkArrLen : FKOption → Nat
  | FKOption.arr xs => xs.length
  | _ => 0

def tkArrLen : TKOption → Nat
  | TKOption.arr xs => xs.length
  | _ => 0

/-- The guard of the composite-key arity check (belongs-to.js:36-41): either
option is an array, and it is not the case that both are arrays of equal length. -/
def arityMismatch (opts : BTOptions) : Bool :=
  (fkIsArr opts.foreignKey || tkIsArr opts.targetKey) &&
    !(fkIsArr opts.foreignKey && tkIsArr opts.targetKey &&
      (fkArrLen opts.foreignKey == tkArrLen opts.targetKey))

/-- Resolution of the `foreignKey` option into descriptors (belongs-to.js:47-65).
Returns `none` when the option leaves `this.foreignKeys` null (absent or a
falsy string), in which case the default descriptor applies (lines 67-73).
A descriptor name is modelled as a `String` where `""` stands for the absent
or empty (falsy) name, matching `foreignKey.name || default` on line 57. -/
def resolveForeignKeys (opts : BTOptions) (dflt : String) : Option (List KeyDesc) :=
  match opts.foreignKey with
  | FKOption.arr xs =>
    some (xs.map (fun e =>
      match e with
      | FKElem.str s => { name := s }
      | FKElem.obj d => d))
  | FKOption.obj d => some [{ d with name := if d.name = "" then dflt else d.name }]
  | FKOption.str s => if s = "" then Option.none else some [{ name := s }]
  | FKOption.none => Option.none

/-- `identifierFields` (belongs-to.js:77-79): the identifiers are the whole
descriptor objects, so the registry lookup key is the coerced
`"[object Object]"` string, and the `.field || identifier` fallback is the
descriptor object itself. -/
def resolveIdentifierFields (source : ModelDef) (fks : List KeyDesc) : List IdField :=
  (fks.filter (fun _d => (source.rawAttributes.lookup objectPropKey).isSome)).map
    (fun d =>
      match source.rawAttributes.lookup objectPropKey with
      | some a =>
        match a.field with
        | some f => if f = "" then IdField.desc d else IdField.str f
        | Option.none => IdField.desc d
      | Option.none => IdField.desc d)

/-- `targetKeys` resolution (belongs-to.js:81-85): an array is taken as is,
otherwise a one-element sequence of the option (a falsy string falls back to
the target's primary key, matching `this.options.targetKey || pk`). -/
def resolveTargetKeys (target : ModelDef) (opts : BTOptions) : List String :=
  match opts.targetKey with
  | TKOption.arr xs => xs
  | TKOption.str s => [if s = "" then target.primaryKeyAttribute else s]
  | TKOption.none => [target.primaryKeyAttribute]

/-- `targetKeyFields` (belongs-to.js:87-89): `target.rawAttributes[k].field || k`
for each target key; a key with no attribute on the target makes the property
read on `undefined` throw a TypeError, modelled as `none`. -/
def resolveTargetKeyFields (target : ModelDef) (keys : List String) : Option (List String) :=
  keys.mapM (fun k => (target.rawAttributes.lookup k).map (fun a => orElseStr a.field k))

/-- The `BelongsTo` constructor (belongs-to.js:18-107): alias resolution, the
composite-key arity check, key-descriptor resolution, `identifierFields`,
`targetKeys`/`targetKeyFields`, `singlePrimaryTargetKey` and the accessor
names.  Throws are modelled with `Except.error`. -/
def construct (source target : ModelDef) (opts : BTOptions) : Except JsError BelongsToAssoc :=
  let asName := opts.aliasName.getD target.singularName
  if arityMismatch opts then
    Except.error (JsError.error arityMsg)
  else
    let dflt := defaultForeignKeyName asName source target
    let foreignKeys := (resolveForeignKeys opts dflt).getD [{ name := dflt }]
    let identifierFields := resolveIdentifierFields source foreignKeys
    let targetKeys := resolveTargetKeys target opts
    match resolveTargetKeyFields target targetKeys with
    | Option.none => Except.error (JsError.typeError typeErrMsg)
    | some targetKeyFields =>
      Except.ok {
        source := source
        target := target
        asName := asName
        isAliased := opts.aliasName.isSome
        foreignKeys := foreignKeys
        targetKeys := targetKeys
        targetKeyFields := targetKeyFields
        identifierFields := identifierFields
        singlePrimaryTargetKey :=
          if targetKeys.length == 1 && (targetKeys.head? == some target.primaryKeyAttribute)
          then foreignKeys.head?.map KeyDesc.name
          else Option.none
        keyType := opts.keyType
        useHooks := opts.useHooks
        accessorGet := "get" ++ uppercaseFirst asName
        accessorSet := "set" ++ uppercaseFirst asName
        accessorCreate := "create" ++ uppercaseFirst asName }

/-- Modelled from the spec: the external constraint builder
(`Helpers.addForeignKeyConstraints`, belongs-to.js:126-132) attaches reference
metadata — the referenced table and the target storage field — to the
candidate attribute. -/
def addForeignKeyConstraints (a : Attr) (target : ModelDef) (targetKeyField : String) : Attr :=
  { a with references := some (target.tableName, targetKeyField) }

/-- Modelled from the spec: the external naming-collision checker
(`Helpers.checkNamingCollision`, belongs-to.js:149) fails when the
association's alias clashes with an attribute of the source registry. -/
def checkNamingCollision (merged : List (String × Attr)) (asName : String) : Except JsError Unit :=
  if (merged.lookup asName).isSome then
    Except.error (JsError.error "Naming collision")
  else Except.ok ()

/-- Modelled from the spec: `Utils.mergeDefaults` — default-merge of the new
attributes into the registry: a name already present keeps its existing
definition untouched; only previously-absent names are appended. -/
def mergeDefaults (dst more : List (String × Attr)) : List (String × Attr) :=
  dst ++ more.filter (fun p => (dst.lookup p.1).isNone)

/-- The per-pair candidate-attribute loop of `injectAttributes`
(belongs-to.js:113-133): for each foreign key, read `targetKeys[index]`
(throwing the missing-target-key error when the entry is absent or a falsy
string, line 117-119), build the candidate by defaulting `type` to
`options.keyType || target.rawAttributes[targetKey].type` and `allowNull` to
`true` underneath the descriptor's own fields (a missing target attribute
makes the `.type` read throw a TypeError), run the constraint builder, and
store the candidate under the descriptor's name. -/
def buildCandidates (a : BelongsToAssoc) :
    Nat → List KeyDesc → List (String × Attr) → Except JsError (List (String × Attr))
  | _, [], acc => Except.ok acc
  | i, fk :: rest, acc =>
    match a.targetKeys[i]? with
    | Option.none => Except.error (JsError.error missingTargetKeyMsg)
    | some tk =>
      if tk = "" then Except.error (JsError.error missingTargetKeyMsg)
      else
        match a.target.rawAttributes.lookup tk with
        | Option.none => Except.error (JsError.typeError typeErrMsg)
        | some ta =>
          let cand : Attr := {
            typeName :=
              match fk.typeName with
              | some t => some t
              | Option.none =>
                match a.keyType with
                | some kt => if kt = "" then ta.typeName else some kt
                | Option.none => ta.typeName
            allowNull := some (fk.allowNull.getD true)
            field := fk.field
            references := Option.none }
          let cand := addForeignKeyConstraints cand a.target ((a.targetKeyFields[i]?).getD "")
          buildCandidates a (i + 1) rest (setKey acc fk.name cand)

/-- `injectAttributes` (belongs-to.js:110-152): build the candidate
attributes, default-merge them into the source registry, refresh the source's
derived attribute caches (registry unchanged), and run the collision check.
Returns the association together with the updated source model. -/
def injectAttributes (a : BelongsToAssoc) : Except JsError (BelongsToAssoc × ModelDef) :=
  match buildCandidates a 0 a.foreignKeys [] with
  | Except.error e => Except.error e
  | Except.ok newAttributes =>
    let merged := mergeDefaults a.source.rawAttributes newAttributes
    let src := { a.source with rawAttributes := merged }
    match checkNamingCollision merged a.asName with
    | Except.error e => Except.error e
    | Except.ok _ => Except.ok ({ a with source := src }, src)

/-- The declaration pipeline: construction followed by attribute injection
(spec section 2 control flow; `Model.belongsTo` is outside the analysed source). -/
def belongsTo (source target : ModelDef) (opts : BTOptions) :
    Except JsError (BelongsToAssoc × ModelDef) :=
  match construct source target opts with
  | Except.error e => Except.error e
  | Except.ok a => injectAttributes a

/-- A live instance: its attribute values by name. -/
structure Instance where
  dataValues : List (String × Value)
deriving DecidableEq, Repr

/-- Modelled from the spec: `Model#get` (the instance base class is outside
the analysed source) — attribute read by name; a missing attribute, or a read
through the `undefined` key, yields the undefined value. -/
def instGet (i : Instance) (k : Option String) : Value :=
  match k with
  | some s => (i.dataValues.lookup s).getD Value.vundef
  | Option.none => Value.vundef

/-- Modelled from the spec: raw property indexing on an instance
(`associatedInstance[k]`) — only declared attribute names are exposed, so
indexing with a missing or `undefined` key yields undefined. -/
def instIndex (i : Instance) (k : Option String) : Value :=
  match k with
  | some s => (i.dataValues.lookup s).getD Value.vundef
  | Option.none => Value.vundef

/-- Modelled from the spec: `Model#set` — attribute write by name; a write
through the `undefined` key lands on the coerced property key `"undefined"`,
not on any declared attribute. -/
def instSet (i : Instance) (k : Option String) (v : Value) : Instance :=
  { dataValues := setKey i.dataValues (jsKeyName k) v }

/-- A single filter condition: equality or an `Op.in` membership test. -/
inductive WhereCond where
  | eqVal (v : Value)
  | opIn (vs : List Value)
deriving DecidableEq, Repr

/-- A filter object: conditions keyed by target-attribute name. -/
abbrev WhereMap := List (String × WhereCond)

/-- The final `options.where` handed to the query: the built filter alone, or
`Op.and` of the built filter and the caller's filter (belongs-to.js:209). -/
inductive WhereExpr where
  | plain (w : WhereMap)
  | opAnd (a : WhereMap) (b : WhereMap)
deriving DecidableEq, Repr

/-- The per-call `scope` option: absent, present-and-falsy (unscoped), or a
truthy scope name (belongs-to.js:177-183). -/
inductive ScopeOpt where
  | absent
  | off
  | named (s : String)
deriving DecidableEq, Repr

/-- Per-call options of the get operation.  `whereFilter` is the caller's
`where`; `limit` models `options.limit` with `none` for absent-or-null. -/
structure GetOptions where
  scope : ScopeOpt := ScopeOpt.absent
  schema : Option String := Option.none
  schemaDelimiter : Option String := Option.none
  whereFilter : Option WhereMap := Option.none
  limit : Option Int := Option.none
deriving DecidableEq, Repr

/-- The target the query is directed at, after scope/schema adjustments. -/
structure TargetRef where
  model : ModelDef
  unscoped : Bool := false
  scopeName : Option String := Option.none
  schema : Option (String × Option String) := Option.none
deriving DecidableEq, Repr

/-- Scope and schema handling at the top of `get` (belongs-to.js:175-187). -/
def applyScopeSchema (m : ModelDef) (o : GetOptions) : TargetRef :=
  let t1 : TargetRef := { model := m }
  let t2 :=
    match o.scope with
    | ScopeOpt.absent => t1
    | ScopeOpt.off => { t1 with unscoped := true }
    | ScopeOpt.named s => { t1 with scopeName := some s }
  match o.schema with
  | some sch => { t2 with schema := some (sch, o.schemaDelimiter) }
  | Option.none => t2

/-- The finalized query options handed to `findAll`/`findOne`. -/
structure FinalizedQuery where
  target : TargetRef
  whereExpr : WhereExpr
  limit : Option Int
deriving DecidableEq, Repr

/-- The single query a call to `get` issues: a primary-key lookup
(`findById`), a single-row `findOne`, or — in batch mode — one `findAll`. -/
inductive GetAction where
  | findById (target : TargetRef) (key : Value) (options : GetOptions)
  | findOne (q : FinalizedQuery)
  | findAll (q : FinalizedQuery)
deriving DecidableEq, Repr

/-- The argument shape of `get`: a single instance or an array (the code
branches on `Array.isArray`, belongs-to.js:189-192). -/
inductive GetArg where
  | single (i : Instance)
  | batch (is : List Instance)
deriving DecidableEq, Repr

/-- Conjoining the built filter with a caller-supplied `where`
(belongs-to.js:209): a present caller filter — even an empty object — is
truthy and produces the `Op.and` form. -/
def conjoinCallerWhere (w : WhereMap) (caller : Option WhereMap) : WhereExpr :=
  match caller with
  | some cw => WhereExpr.opAnd w cw
  | Option.none => WhereExpr.plain w

/-- The batch filter loop (belongs-to.js:195-199):
`where[targetKeys[i]] = { [Op.in]: instances.map(inst => inst.get(fk.name)) }`. -/
def batchWhereGo (a : BelongsToAssoc) (instances : List Instance) :
    Nat → List KeyDesc → WhereMap → WhereMap
  | _, [], acc => acc
  | i, fk :: rest, acc =>
    batchWhereGo a instances (i + 1) rest
      (setKey acc (jsKeyName a.targetKeys[i]?)
        (WhereCond.opIn (instances.map (fun inst => instGet inst (some fk.name)))))

/-- The batch filter over all key columns. -/
def batchWhere (a : BelongsToAssoc) (instances : List Instance) : WhereMap :=
  batchWhereGo a instances 0 a.foreignKeys []

/-- The general single-instance filter loop (belongs-to.js:203-205):
`where[targetKeys[i]] = instance.get(fk.name)`. -/
def singleWhereGo (a : BelongsToAssoc) (inst : Instance) :
    Nat → List KeyDesc → WhereMap → WhereMap
  | _, [], acc => acc
  | i, fk :: rest, acc =>
    singleWhereGo a inst (i + 1) rest
      (setKey acc (jsKeyName a.targetKeys[i]?)
        (WhereCond.eqVal (instGet inst (some fk.name))))

/-- The general single-instance equality filter. -/
def singleWhere (a : BelongsToAssoc) (inst : Instance) : WhereMap :=
  singleWhereGo a inst 0 a.foreignKeys []

/-- `get` (belongs-to.js:169-227), as the single query it issues.  Batch mode
builds the membership filter and issues one `findAll`.  A single instance
takes the `findById` fast path when `singlePrimaryTargetKey` is truthy (a
non-empty name) and no caller `where` was supplied; otherwise it builds the
equality filter, nulls the limit and issues `findOne`. -/
def get (a : BelongsToAssoc) (arg : GetArg) (options : GetOptions) : GetAction :=
  let t := applyScopeSchema a.target options
  match arg with
  | GetArg.batch instances =>
    GetAction.findAll {
      target := t
      whereExpr := conjoinCallerWhere (batchWhere a instances) options.whereFilter
      limit := options.limit }
  | GetArg.single inst =>
    if a.singlePrimaryTargetKey.getD "" ≠ "" ∧ options.whereFilter = Option.none then
      GetAction.findById t (instGet inst a.singlePrimaryTargetKey) options
    else
      GetAction.findOne {
        target := t
        whereExpr := conjoinCallerWhere (singleWhere a inst) options.whereFilter
        limit := Option.none }

/-- An entry of the batch-mode result mapping: `null` or a target instance. -/
inductive ResEntry where
  | rnull
  | rinst (i : Instance)
deriving DecidableEq, Repr

/-- The batch-mode result construction (belongs-to.js:212-223): seed the map
with `null` under `instance.get(association.foreignKey)` for every source
instance, then overwrite with each result row under
`instance.get(association.targetKey)` — both reads go through the
never-assigned singular properties. -/
def batchResult (a : BelongsToAssoc) (instances results : List Instance) :
    List (String × ResEntry) :=
  let base := instances.foldl
    (fun acc inst => setKey acc (propKeyOfValue (instGet inst a.foreignKeySingular)) ResEntry.rnull)
    []
  results.foldl
    (fun acc inst =>
      setKey acc (propKeyOfValue (instGet inst a.targetKeySingular)) (ResEntry.rinst inst))
    base

/-- The argument shape of `set`'s second parameter: the `instanceof
association.target` branch versus a raw key value (belongs-to.js:242-245). -/
inductive SetArg where
  | targetInstance (i : Instance)
  | raw (v : Value)
deriving DecidableEq, Repr

/-- Per-call options of the set operation (`save`; `transaction`/`logging`
ride along from `create`). -/
structure SetOptions where
  save : Option Bool := Option.none
  transaction : Option Nat := Option.none
  logging : Option Value := Option.none
deriving DecidableEq, Repr

/-- The options handed to `sourceInstance.save` (belongs-to.js:251-258):
the defaults extended with the caller options.  The `fields` and `allowNull`
entries are `[association.foreignKey]` — the undefined singular property. -/
structure SaveOptions where
  fields : List (Option String)
  allowNullFields : List (Option String)
  association : Bool
  save : Option Bool
  transaction : Option Nat
  logging : Option Value
deriving DecidableEq, Repr

/-- The observable outcome of `set`: the source instance after the in-memory
assignment, and the persistence call (none when `options.save === false`). -/
structure SetOutcome where
  sourceAfter : Instance
  saveCall : Option SaveOptions
deriving DecidableEq, Repr

/-- `set` (belongs-to.js:237-262): extract `associatedInstance[association.targetKey]`
when the argument is a target instance (the singular property is undefined),
otherwise take the raw value; assign it via
`sourceInstance.set(association.foreignKey, value)` (again the undefined
singular property); stop when `options.save === false`, otherwise issue the
narrow save with `fields`/`allowNull` of `[association.foreignKey]` and the
`association: true` marker. -/
def set (a : BelongsToAssoc) (sourceInstance : Instance) (arg : SetArg)
    (options : SetOptions) : SetOutcome :=
  let value :=
    match arg with
    | SetArg.targetInstance i => instIndex i a.targetKeySingular
    | SetArg.raw v => v
  let src := instSet sourceInstance a.foreignKeySingular value
  if options.save = some false then
    { sourceAfter := src, saveCall := Option.none }
  else
    { sourceAfter := src
      saveCall := some {
        fields := [a.foreignKeySingular]
        allowNullFields := [a.foreignKeySingular]
        association := true
        save := options.save
        transaction := options.transaction
        logging := options.logging } }

/-- Modelled from the spec: the resolution value of the promise `set` returns
— `undefined` when the save was skipped, otherwise the persisted source
instance (`Model#save` is outside the analysed source; spec section 4.5 allows
an instance resolution). -/
def saveResolution (outcome : SetOutcome) : Option Instance :=
  outcome.saveCall.map (fun _ => outcome.sourceAfter)

/-- The `transaction` entry of `create`'s third argument: a `Transaction`
instance (identified by a tag) or any other value (belongs-to.js:277 forwards
it only when `instanceof Transaction`). -/
inductive TransVal where
  | transactionInst (n : Nat)
  | other (v : Value)
deriving DecidableEq, Repr

/-- The `fieldsOrOptions` argument of `create`. -/
structure CreateOptions where
  transactionVal : Option TransVal := Option.none
  logging : Option Value := Option.none
deriving DecidableEq, Repr

/-- The observable outcome of `create`: the values and options handed to
`target.create`, the trimmed options handed to the setter, the set outcome
that runs after creation completes, and what the returned promise resolves
with. -/
structure CreateOutcome where
  createValues : List (String × Value)
  createOptions : Option CreateOptions
  trimmed : SetOptions
  setAfterCreate : SetOutcome
  resolved : Option Instance
deriving DecidableEq, Repr

/-- `create` (belongs-to.js:272-287): forward `values` and `fieldsOrOptions`
to `target.create`; build the trimmed options (transaction only when it is a
`Transaction` instance, logging always); after the creation resolves with the
new instance, invoke the generated set accessor on it; the returned promise
resolves with the set invocation's result.  The created instance is supplied
as the `created` parameter (the external `target.create` resolves with it). -/
def create (a : BelongsToAssoc) (sourceInstance : Instance)
    (values : List (String × Value)) (fieldsOrOptions : Option CreateOptions)
    (created : Instance) : CreateOutcome :=
  let fo := fieldsOrOptions.getD {}
  let trimmed : SetOptions := {
    save := Option.none
    transaction :=
      match fo.transactionVal with
      | some (TransVal.transactionInst n) => some n
      | _ => Option.none
    logging := fo.logging }
  let st := set a sourceInstance (SetArg.targetInstance created) trimmed
  { createValues := values
    createOptions := fieldsOrOptions
    trimmed := trimmed
    setAfterCreate := st
    resolved := saveResolution st }

/-- Discriminator for the primary-key fast path of `get`. -/
def isFindById : GetAction → Bool
  | GetAction.findById _ _ _ => true
  | _ => false

/-! Concrete fixtures used by the witnesses and counterexamples. -/

/-- An INTEGER primary-key attribute. -/
def idAttr : Attr := { typeName := some "INTEGER" }

/-- The target entity of the fixtures: primary key `id`. -/
def authorModel : ModelDef := {
  singularName := "Author"
  rawAttributes := [("id", idAttr), ("name", { typeName := some "STRING" })]
  primaryKeyAttribute := "id"
  underscored := false
  tableName := "Authors" }

/-- The source entity of the fixtures. -/
def bookModel : ModelDef := {
  singularName := "Book"
  rawAttributes := [("id", idAttr), ("title", { typeName := some "STRING" })]
  primaryKeyAttribute := "id"
  underscored := false
  tableName := "Books" }

/-- A fallback association literal for total extraction from `Except`. -/
def dummyAssoc : BelongsToAssoc := {
  source := bookModel
  target := authorModel
  asName := ""
  isAliased := false
  foreignKeys := []
  targetKeys := []
  targetKeyFields := []
  identifierFields := []
  singlePrimaryTargetKey := Option.none
  keyType := Option.none
  useHooks := Option.none
  accessorGet := ""
  accessorSet := ""
  accessorCreate := "" }

/-- Declaration options of the main fixture: `foreignKey: "authorId"`. -/
def authorOpts : BTOptions := { foreignKey := FKOption.str "authorId" }

/-- The main fixture association: `Book.belongsTo(Author, { foreignKey: "authorId" })`. -/
def assocAuthor : BelongsToAssoc :=
  (construct bookModel authorModel authorOpts).toOption.getD dummyAssoc

/-- A user-defined foreign-key attribute already present on the source. -/
def customAuthorId : Attr :=
  { typeName := some "BIGINT", allowNull := some false, field := some "author_ref" }

/-- A source model that already defines the `authorId` attribute explicitly. -/
def bookModelCustom : ModelDef := {
  singularName := "Book"
  rawAttributes := [("id", idAttr), ("authorId", customAuthorId)]
  primaryKeyAttribute := "id"
  underscored := false
  tableName := "Books" }

/-- The association over the pre-declared source attribute. -/
def assocAuthorCustom : BelongsToAssoc :=
  (construct bookModelCustom authorModel authorOpts).toOption.getD dummyAssoc

/-- The result of injecting attributes into the pre-declared source. -/
def injectCustomOut : BelongsToAssoc × ModelDef :=
  (injectAttributes assocAuthorCustom).toOption.getD (dummyAssoc, bookModelCustom)

/-- A source instance with foreign-key value 1. -/
def srcA : Instance := { dataValues := [("authorId", Value.vint 1)] }

/-- A source instance with foreign-key value 2. -/
def srcB : Instance := { dataValues := [("authorId", Value.vint 2)] }

/-- A target row whose key matches `srcA`. -/
def rowOne : Instance := { dataValues := [("id", Value.vint 1)] }

/-- A source instance with a null foreign key. -/
def srcNull : Instance := { dataValues := [("authorId", Value.vnull)] }

/-- A target instance whose primary key is 5. -/
def authorFive : Instance := { dataValues := [("id", Value.vint 5)] }

/-- A source instance whose foreign key currently holds 7. -/
def srcSeven : Instance := { dataValues := [("authorId", Value.vint 7)] }

/-- A freshly created target instance with primary key 9. -/
def createdNine : Instance := { dataValues := [("id", Value.vint 9)] }

/-! Helper lemmas shared by the claim theorems. -/

/-- Lookup in a concatenation succeeds on the left part when it succeeds there. -/
theorem lookup_append_of_some {β : Type} (k : String) (d : β) :
    ∀ (l₁ l₂ : List (String × β)), l₁.lookup k = some d → (l₁ ++ l₂).lookup k = some d := by
  intro l₁ l₂ h
  induction l₁ with
  | nil => simp [List.lookup] at h
  | cons p t ih =>
    obtain ⟨pk, pv⟩ := p
    rw [List.cons_append]
    by_cases hk : k = pk
    · subst hk
      simp [List.lookup] at h ⊢
      exact h
    · have hbeq : (k == pk) = false := by
        exact beq_false_of_ne hk
      simp [List.lookup, hbeq] at h ⊢
      exact ih h

/-- `mergeDefaults` keeps every binding already present in the registry. -/
theorem mergeDefaults_preserves (dst more : List (String × Attr)) (k : String) (d : Attr)
    (h : dst.lookup k = some d) : (mergeDefaults dst more).lookup k = some d :=
  lookup_append_of_some k d dst _ h

/-! Claim theorems. -/

/-- Claim C1 (code bug, evaluated at the failing input): batch `get` does
build the single membership filter and issue exactly one `findAll`, but the
returned mapping is keyed by `instance.get(association.foreignKey)` and
`instance.get(association.targetKey)`, singular properties the class never
assigns; so for sources with foreign-key values 1 and 2 and one matching
target row, the whole mapping collapses onto the single key "undefined" and
holds no entry for either foreign-key value — not the claimed per-instance
mapping to the matched row or null. -/
theorem batch_get_mapping_bug :
    get assocAuthor (GetArg.batch [srcA, srcB]) {} =
      GetAction.findAll {
        target := { model := authorModel }
        whereExpr := WhereExpr.plain [("id", WhereCond.opIn [Value.vint 1, Value.vint 2])]
        limit := Option.none } ∧
    batchResult assocAuthor [srcA, srcB] [rowOne] = [("undefined", ResEntry.rinst rowOne)] ∧
    (batchResult assocAuthor [srcA, srcB] [rowOne]).lookup "1" = Option.none ∧
    (batchResult assocAuthor [srcA, srcB] [rowOne]).lookup "2" = Option.none := by
  refine ⟨rfl, rfl, rfl, rfl⟩

/-- Claim C2 (code bug, evaluated at the failing input): `set` reads
`associatedInstance[association.targetKey]` and writes through
`sourceInstance.set(association.foreignKey, ...)`, both never-assigned
singular properties; so setting a target instance whose `id` is 5 leaves the
source's `authorId` untouched, writes `undefined` under the stray key
"undefined", and the narrow save's field list is `[undefined]` rather than
the foreign-key attribute. -/
theorem set_assigns_wrong_attribute :
    (set assocAuthor srcNull (SetArg.targetInstance authorFive) {}).sourceAfter =
      { dataValues := [("authorId", Value.vnull), ("undefined", Value.vundef)] } ∧
    instGet (set assocAuthor srcNull (SetArg.targetInstance authorFive) {}).sourceAfter
      (some "authorId") ≠ Value.vint 5 ∧
    (set assocAuthor srcNull (SetArg.targetInstance authorFive) {}).saveCall =
      some {
        fields := [Option.none]
        allowNullFields := [Option.none]
        association := true
        save := Option.none
        transaction := Option.none
        logging := Option.none } ∧
    ((set assocAuthor srcNull (SetArg.targetInstance authorFive) {}).saveCall.map
      SaveOptions.fields) ≠ some [some "authorId"] := by
  refine ⟨rfl, by decide, rfl, by decide⟩

/-- Claim C8 (code bug, evaluated at the failing input): with
`options.save === false` no persistence call is issued (that part holds), but
the in-memory assignment goes through the never-assigned
`association.foreignKey`, so `set(instance, null, save:false)` on a source
whose `authorId` is 7 leaves `authorId` at 7 — not null — and writes the null
under the stray key "undefined". -/
theorem set_saveFalse_bug :
    (set assocAuthor srcSeven (SetArg.raw Value.vnull) { save := some false }).saveCall =
      Option.none ∧
    instGet (set assocAuthor srcSeven (SetArg.raw Value.vnull) { save := some false }).sourceAfter
      (some "authorId") = Value.vint 7 ∧
    instGet (set assocAuthor srcSeven (SetArg.raw Value.vnull) { save := some false }).sourceAfter
      (some "authorId") ≠ Value.vnull ∧
    (set assocAuthor srcSeven (SetArg.raw Value.vnull) { save := some false }).sourceAfter =
      { dataValues := [("authorId", Value.vint 7), ("undefined", Value.vnull)] } := by
  refine ⟨rfl, rfl, by decide, rfl⟩

/-- Claim C9 (code bug, evaluated at the failing input): `identifierFields`
filters and maps `source.rawAttributes[identifier]` where the identifiers are
whole descriptor objects, so the lookup key is the coerced string
"[object Object]"; even when the source explicitly defines the foreign-key
attribute `authorId` with storage field `author_ref`, the computed
`identifierFields` is empty instead of containing that field name. -/
theorem identifierFields_bug :
    construct bookModelCustom authorModel authorOpts = Except.ok assocAuthorCustom ∧
    bookModelCustom.rawAttributes.lookup "authorId" = some customAuthorId ∧
    assocAuthorCustom.foreignKeys = [{ name := "authorId" }] ∧
    assocAuthorCustom.identifierFields = [] ∧
    assocAuthorCustom.identifierFields ≠ [IdField.str "author_ref"] := by
  refine ⟨rfl, rfl, rfl, rfl, by decide⟩

/-- Claim C10 (code bug, evaluated at the failing input): a configured target
key that is not an attribute of the target makes the constructor's
`target.rawAttributes[targetKey].field` read (line 88) throw a TypeError at
construction time; the dedicated missing-target-key error of
`injectAttributes` (line 117-119) is never reached, because its guard tests
only the falsiness of the key name, and injection is never entered at all. -/
theorem missing_targetKey_bug :
    authorModel.rawAttributes.lookup "nope" = Option.none ∧
    construct bookModel authorModel { targetKey := TKOption.str "nope" } =
      Except.error (JsError.typeError typeErrMsg) ∧
    belongsTo bookModel authorModel { targetKey := TKOption.str "nope" } =
      Except.error (JsError.typeError typeErrMsg) ∧
    JsError.typeError typeErrMsg ≠ JsError.error missingTargetKeyMsg := by
  refine ⟨rfl, rfl, rfl, by decide⟩

/-- Claim C3 fails as stated (counterexample at a concrete input): the
promise `create` returns resolves with the result of the set invocation —
not with the newly created target instance. -/
theorem create_counterexample :
    (create assocAuthor srcNull [("name", Value.vstr "X")] Option.none createdNine).resolved ≠
      some createdNine ∧
    (create assocAuthor srcNull [("name", Value.vstr "X")] Option.none createdNine).resolved =
      saveResolution
        (create assocAuthor srcNull [("name", Value.vstr "X")] Option.none createdNine).setAfterCreate := by
  refine ⟨by decide, rfl⟩

/-- Claim C3 (amended): `create` forwards `values` and the caller's
`fieldsOrOptions` to the target's create operation, builds trimmed options
whose transaction is forwarded only when it is a `Transaction` instance and
whose logging is forwarded always, invokes the generated set accessor with
the created instance only after the creation has resolved, and the returned
promise resolves with that set invocation's result (the persisted source
instance), not with the created target instance. -/
theorem create_sequences_create_then_set (a : BelongsToAssoc) (src : Instance)
    (values : List (String × Value)) (fo : Option CreateOptions) (created : Instance) :
    (create a src values fo created).createValues = values ∧
    (create a src values fo created).createOptions = fo ∧
    (create a src values fo created).trimmed =
      { save := Option.none
        transaction :=
          match (fo.getD {}).transactionVal with
          | some (TransVal.transactionInst n) => some n
          | _ => Option.none
        logging := (fo.getD {}).logging } ∧
    (create a src values fo created).setAfterCreate =
      set a src (SetArg.targetInstance created) (create a src values fo created).trimmed ∧
    (create a src values fo created).resolved =
      saveResolution (create a src values fo created).setAfterCreate := by
  refine ⟨rfl, rfl, rfl, rfl, rfl⟩

/-- Claim C4: when `foreignKey` or `targetKey` is an array and they are not
two arrays of identical length, construction fails with the configuration
error; the whole declaration pipeline fails with that same error, so no
attribute is ever injected into the source schema. -/
theorem construct_arity_check (source target : ModelDef) (opts : BTOptions)
    (harr : fkIsArr opts.foreignKey = true ∨ tkIsArr opts.targetKey = true)
    (hmis : ¬(fkIsArr opts.foreignKey = true ∧ tkIsArr opts.targetKey = true ∧
      fkArrLen opts.foreignKey = tkArrLen opts.targetKey)) :
    construct source target opts = Except.error (JsError.error arityMsg) ∧
    belongsTo source target opts = Except.error (JsError.error arityMsg) := by
  have hbad : arityMismatch opts = true := by
    cases hf : fkIsArr opts.foreignKey <;> cases ht : tkIsArr opts.targetKey <;>
      simp_all [arityMismatch]
  constructor
  · simp [construct, hbad]
  · simp [belongsTo, construct, hbad]

/-- Concrete mismatched arrays: two foreign keys against one target key. -/
def mismatchOpts : BTOptions :=
  { foreignKey := FKOption.arr [FKElem.str "a", FKElem.str "b"]
    targetKey := TKOption.arr ["x"] }

theorem construct_arity_check_witness :
    construct bookModel authorModel mismatchOpts = Except.error (JsError.error arityMsg) ∧
    belongsTo bookModel authorModel mismatchOpts = Except.error (JsError.error arityMsg) :=
  construct_arity_check bookModel authorModel mismatchOpts (Or.inl rfl) (by decide)

/-- Claim C5: attribute injection never replaces an attribute already defined
on the source entity — after a successful `injectAttributes`, every name
bound in the source registry beforehand still maps to its old descriptor. -/
theorem injectAttributes_preserves_existing (a b : BelongsToAssoc) (src2 : ModelDef)
    (hinj : injectAttributes a = Except.ok (b, src2)) (k : String) (d : Attr)
    (hk : a.source.rawAttributes.lookup k = some d) :
    src2.rawAttributes.lookup k = some d := by
  unfold injectAttributes at hinj
  cases hbc : buildCandidates a 0 a.foreignKeys [] with
  | error e => rw [hbc] at hinj; exact absurd hinj (by simp)
  | ok cands =>
    rw [hbc] at hinj
    simp only [] at hinj
    cases hcc : checkNamingCollision (mergeDefaults a.source.rawAttributes cands) a.asName with
    | error e => rw [hcc] at hinj; exact absurd hinj (by simp)
    | ok u =>
      rw [hcc] at hinj
      simp only [Except.ok.injEq, Prod.mk.injEq] at hinj
      obtain ⟨_, hs⟩ := hinj
      rw [← hs]
      exact mergeDefaults_preserves _ _ _ _ hk

theorem injectAttributes_preserves_existing_witness :
    injectAttributes assocAuthorCustom = Except.ok (injectCustomOut.1, injectCustomOut.2) ∧
    assocAuthorCustom.source.rawAttributes.lookup "authorId" = some customAuthorId ∧
    injectCustomOut.2.rawAttributes.lookup "authorId" = some customAuthorId :=
  ⟨rfl, rfl,
    injectAttributes_preserves_existing assocAuthorCustom injectCustomOut.1 injectCustomOut.2
      rfl "authorId" customAuthorId rfl⟩

/-- Claim C6: with no `foreignKey` configured, the resolved foreign keys are
the single default descriptor, whose name is the camel-cased (by the source's
non-underscored convention) join of the optionally underscored alias and the
target's primary-key attribute name. -/
theorem construct_default_fk (source target : ModelDef) (opts : BTOptions) (a : BelongsToAssoc)
    (hfk : opts.foreignKey = FKOption.none)
    (hok : construct source target opts = Except.ok a) :
    a.foreignKeys =
      [{ name := defaultForeignKeyName (opts.aliasName.getD target.singularName) source target }] := by
  cases hbad : arityMismatch opts with
  | true => simp [construct, hbad] at hok
  | false =>
    cases hrt : resolveTargetKeyFields target (resolveTargetKeys target opts) with
    | none => simp [construct, hbad, hrt] at hok
    | some tkf =>
      simp only [construct, hbad, hrt, Bool.false_eq_true, if_false, Except.ok.injEq] at hok
      rw [← hok]
      simp [resolveForeignKeys, hfk]

/-- Declaration options for the example in the spec: alias "Author". -/
def aliasOpts : BTOptions := { aliasName := some "Author" }

/-- The aliased fixture association with defaulted foreign key. -/
def assocAliased : BelongsToAssoc :=
  (construct bookModel authorModel aliasOpts).toOption.getD dummyAssoc

theorem construct_default_fk_witness :
    construct bookModel authorModel aliasOpts = Except.ok assocAliased ∧
    assocAliased.foreignKeys = [{ name := "AuthorId" }] := by
  refine ⟨rfl, ?_⟩
  have h := construct_default_fk bookModel authorModel aliasOpts assocAliased rfl rfl
  rw [h]
  rfl

/-- Claim C7 (amended): `singlePrimaryTargetKey` is the sole foreign-key name
exactly when there is one key pair on the target's primary key (and null
otherwise); and a single-instance get with no caller `where` takes the direct
primary-key lookup whenever that name is additionally non-empty (a truthy
string) — an empty foreign-key name is falsy and falls through to the
generic filter path. -/
theorem singlePrimary_fast_path (source target : ModelDef) (opts : BTOptions) (a : BelongsToAssoc)
    (inst : Instance) (options : GetOptions) (k : String)
    (hok : construct source target opts = Except.ok a) :
    (a.singlePrimaryTargetKey =
      if a.targetKeys.length == 1 && (a.targetKeys.head? == some target.primaryKeyAttribute)
      then a.foreignKeys.head?.map KeyDesc.name else Option.none) ∧
    (a.singlePrimaryTargetKey = some k → k ≠ "" → options.whereFilter = Option.none →
      get a (GetArg.single inst) options =
        GetAction.findById (applyScopeSchema a.target options) (instGet inst (some k)) options) := by
  constructor
  · cases hbad : arityMismatch opts with
    | true => simp [construct, hbad] at hok
    | false =>
      cases hrt : resolveTargetKeyFields target (resolveTargetKeys target opts) with
      | none => simp [construct, hbad, hrt] at hok
      | some tkf =>
        simp only [construct, hbad, hrt, Bool.false_eq_true, if_false, Except.ok.injEq] at hok
        rw [← hok]
  · intro hs hkne hw
    simp [get, hs, hw, hkne]

/-- An association whose sole key pair targets the primary key but whose
foreign-key name is the empty string (a falsy value). -/
def emptyNameOpts : BTOptions :=
  { foreignKey := FKOption.arr [FKElem.str ""], targetKey := TKOption.arr ["id"] }

/-- The fixture association with the empty foreign-key name. -/
def assocEmptyName : BelongsToAssoc :=
  (construct bookModel authorModel emptyNameOpts).toOption.getD dummyAssoc

/-- Claim C7 fails as stated (counterexample at a concrete input): this
relationship has exactly one key pair whose target key is the target's
primary key, yet a single-instance get with no caller `where` does not
perform the primary-key lookup, because the sole foreign-key name is the
empty string and the fast-path guard tests its truthiness. -/
theorem singlePrimary_fast_path_counterexample :
    construct bookModel authorModel emptyNameOpts = Except.ok assocEmptyName ∧
    assocEmptyName.targetKeys = [authorModel.primaryKeyAttribute] ∧
    assocEmptyName.foreignKeys.length = 1 ∧
    assocEmptyName.singlePrimaryTargetKey = some "" ∧
    isFindById (get assocEmptyName (GetArg.single srcA) {}) = false := by
  refine ⟨rfl, rfl, rfl, rfl, rfl⟩

theorem singlePrimary_fast_path_witness :
    assocAuthor.singlePrimaryTargetKey =
      (if assocAuthor.targetKeys.length == 1 &&
          (assocAuthor.targetKeys.head? == some authorModel.primaryKeyAttribute)
       then assocAuthor.foreignKeys.head?.map KeyDesc.name else Option.none) ∧
    get assocAuthor (GetArg.single srcSeven) {} =
      GetAction.findById (applyScopeSchema assocAuthor.target {}) (Value.vint 7) {} := by
  have h := singlePrimary_fast_path bookModel authorModel authorOpts assocAuthor srcSeven {}
    "authorId" rfl
  refine ⟨h.1, ?_⟩
  have h2 := h.2 rfl (by decide) rfl
  rw [h2]
  rfl

end Sequelize
